import Mathlib

/-
Formal model of the reflow oven controller firmware
(src/reflowOvenController.ino), shallowly embedded in Lean 4.

Modelling conventions:
* The Arduino millisecond clock (millis) is modelled as a natural number
  supplied once per loop iteration; unsigned-long arithmetic is modelled
  by natural-number arithmetic (truncated subtraction), which agrees with
  the firmware as long as the clock is monotone and does not wrap.
* C doubles are modelled as rationals; all the firmware does with them is
  compare, subtract, multiply and divide by constants, and the claims are
  about the comparison operators, which rationals reproduce exactly.
* Each iteration of loop() is one application of loopStep: the thermocouple
  read (with fault check), the display timer, the reflow phase switch, the
  cancel-button check, the debounce switch, and the final SSR safety clause,
  composed in the order of the source.
* digitalWrite(ssrPin, HIGH/LOW) is modelled as the ssr : Bool field
  (true = HIGH = heater energized); likewise the buzzer pin.
* analogRead(buttonPin) == 0 (pressed) versus > 0 (released) is modelled
  as the Boolean input rawPressed.
-/

namespace ReflowOven

/-- Phases of the reflow state machine, mirroring enum REFLOW_PHASE. -/
inductive ReflowPhase
  | idle
  | preheat
  | soak
  | reflow
  | peak
  | cool
  | complete
  | tooHot
  | error
deriving DecidableEq

/-- Mirrors enum OVEN_STATUS (OVEN_OFF, OVEN_ON). -/
inductive OvenStatus
  | off
  | on
deriving DecidableEq

/-- Mirrors enum BUTTON (BUTTON_NONE, BUTTON_1, BUTTON_2). -/
inductive Button
  | none
  | b1
  | b2
deriving DecidableEq

/-- Mirrors enum DEBOUNCE_STATE (IDLE, CHECK, RELEASE). -/
inductive DebounceState
  | idle
  | check
  | release
deriving DecidableEq

/-- Source constant #define RAMPUP 3.0 -/
def RAMPUP : ℚ := 3

/-- Source constant #define ROOM_TEMPERATURE 50 -/
def ROOM_TEMPERATURE : ℚ := 50

/-- Source constant #define SOAK_TEMPERATURE 150 -/
def SOAK_TEMPERATURE : ℚ := 150

/-- Source constant #define SOAK_PERIOD 90000 -/
def SOAK_PERIOD : ℕ := 90000

/-- Source constant #define PEAK_TEMPERATURE 237 -/
def PEAK_TEMPERATURE : ℚ := 237

/-- Source constant #define PEAK_PERIOD 50000 -/
def PEAK_PERIOD : ℕ := 50000

/-- Source constant #define COOL_TEMPERATURE 100 -/
def COOL_TEMPERATURE : ℚ := 100

/-- Source constant #define READ_INTERVAL_TIME 200 -/
def READ_INTERVAL_TIME : ℕ := 200

/-- Source constant #define DISPLAY_INTERVAL_TIME 1000 -/
def DISPLAY_INTERVAL_TIME : ℕ := 1000

/-- Source constant #define DEBOUNCE_PERIOD_MIN 50 -/
def DEBOUNCE_PERIOD_MIN : ℕ := 50

/-- Modelled from the spec: the temperature sensor collaborator (the external
MAX31855 library, not part of this repository) returns either a Celsius
reading or one of three distinct fault sentinels, FAULT_OPEN,
FAULT_SHORT_GND and FAULT_SHORT_VCC, which the firmware compares against
the stored reading; the sentinels are the library constants 10000-10002,
far outside any physical temperature. -/
def FAULT_OPEN : ℚ := 10000

/-- Modelled from the spec: short-to-ground fault sentinel of the external
sensor library. -/
def FAULT_SHORT_GND : ℚ := 10001

/-- Modelled from the spec: short-to-supply fault sentinel of the external
sensor library. -/
def FAULT_SHORT_VCC : ℚ := 10002

/-- The fault test the firmware performs on a reading:
(temp == FAULT_OPEN) || (temp == FAULT_SHORT_GND) || (temp == FAULT_SHORT_VCC). -/
def isFault (t : ℚ) : Prop :=
  t = FAULT_OPEN ∨ t = FAULT_SHORT_GND ∨ t = FAULT_SHORT_VCC

instance (t : ℚ) : Decidable (isFault t) := by
  unfold isFault
  infer_instance

/-- The global mutable state of the firmware: the timer, phase, context,
debounce and actuator variables of the sketch, plus the levels of the SSR
and buzzer output pins (true = HIGH). -/
structure OvenState where
  nextRead : ℕ
  nextDisplay : ℕ
  phaseStartTime : ℕ
  temp : ℚ
  phaseStartTemp : ℚ
  buzzerPeriod : ℕ
  reflowPhase : ReflowPhase
  ovenStatus : OvenStatus
  debounceState : DebounceState
  lastDebounceTime : ℕ
  buttonStatus : Button
  ssr : Bool
  buzzer : Bool
deriving DecidableEq

/-- The external inputs consumed by one iteration of loop(): the millis()
clock, the value the thermocouple would deliver if read this iteration, and
whether the raw button input currently reads pressed (analogRead == 0). -/
structure LoopInput where
  now : ℕ
  sensor : ℚ
  rawPressed : Bool
deriving DecidableEq

/-- The thermocouple sampling block at the top of loop(): when the read
timer is due, advance it by READ_INTERVAL_TIME, store the reading, and on
a fault reading force REFLOW_PHASE_ERROR and OVEN_OFF. -/
def readStep (s : OvenState) (now : ℕ) (sensor : ℚ) : OvenState :=
  if now > s.nextRead then
    if isFault sensor then
      { s with nextRead := s.nextRead + READ_INTERVAL_TIME, temp := sensor,
               reflowPhase := .error, ovenStatus := .off }
    else
      { s with nextRead := s.nextRead + READ_INTERVAL_TIME, temp := sensor }
  else s

/-- The display block of loop(): when the display timer is due, advance it
by DISPLAY_INTERVAL_TIME; the LCD and serial writes are external I/O and
leave the controller state untouched. -/
def displayStep (s : OvenState) (now : ℕ) : OvenState :=
  if now > s.nextDisplay then
    { s with nextDisplay := s.nextDisplay + DISPLAY_INTERVAL_TIME }
  else s

/-- The reflow oven controller state machine: the switch (reflowPhase)
statement of loop(), verbatim case by case. -/
def reflowStep (s : OvenState) (now : ℕ) : OvenState :=
  match s.reflowPhase with
  | .idle =>
    if s.temp ≥ ROOM_TEMPERATURE then
      { s with ovenStatus := .off, reflowPhase := .tooHot }
    else if s.buttonStatus = .b1 then
      { s with ovenStatus := .off, reflowPhase := .preheat,
               phaseStartTime := now, phaseStartTemp := s.temp }
    else
      { s with ovenStatus := .off }
  | .preheat =>
    if s.temp ≥ SOAK_TEMPERATURE then
      { s with ovenStatus := .on, phaseStartTime := now,
               phaseStartTemp := s.temp, reflowPhase := .soak }
    else if s.temp - s.phaseStartTemp < ((now - s.phaseStartTime : ℕ) : ℚ) * RAMPUP / 1000 then
      { s with ovenStatus := .on, ssr := true }
    else
      { s with ovenStatus := .on, ssr := false }
  | .soak =>
    if now > s.phaseStartTime + SOAK_PERIOD then
      { s with ovenStatus := .on, phaseStartTime := now,
               phaseStartTemp := s.temp, reflowPhase := .reflow }
    else if s.temp < SOAK_TEMPERATURE then
      { s with ovenStatus := .on, ssr := true }
    else
      { s with ovenStatus := .on, ssr := false }
  | .reflow =>
    if s.temp ≥ PEAK_TEMPERATURE then
      { s with ovenStatus := .on, phaseStartTime := now,
               phaseStartTemp := s.temp, reflowPhase := .peak }
    else if s.temp - s.phaseStartTemp < ((now - s.phaseStartTime : ℕ) : ℚ) * RAMPUP / 1000 then
      { s with ovenStatus := .on, ssr := true }
    else
      { s with ovenStatus := .on, ssr := false }
  | .peak =>
    if now > s.phaseStartTime + PEAK_PERIOD then
      { s with ssr := false, ovenStatus := .off, phaseStartTime := now,
               phaseStartTemp := s.temp, reflowPhase := .cool }
    else if s.temp < PEAK_TEMPERATURE then
      { s with ovenStatus := .on, ssr := true }
    else
      { s with ovenStatus := .on, ssr := false }
  | .cool =>
    if s.temp ≤ COOL_TEMPERATURE then
      { s with ovenStatus := .off, buzzerPeriod := now + 1000,
               buzzer := true, reflowPhase := .complete }
    else
      { s with ovenStatus := .off }
  | .complete =>
    if now > s.buzzerPeriod then
      { s with ovenStatus := .off, buzzer := false, reflowPhase := .idle }
    else
      { s with ovenStatus := .off }
  | .tooHot =>
    if s.temp < ROOM_TEMPERATURE then
      { s with ovenStatus := .off, reflowPhase := .idle }
    else
      { s with ovenStatus := .off }
  | .error =>
    if isFault s.temp then
      { s with ovenStatus := .off }
    else
      { s with ovenStatus := .off, reflowPhase := .idle }

/-- The cancel check after the switch: if BUTTON 1 is pressed while the
oven is on, turn the process off, drive the SSR low and reinitialize the
state machine to idle. -/
def cancelStep (s : OvenState) : OvenState :=
  if s.buttonStatus = .b1 then
    if s.ovenStatus = .on then
      { s with ovenStatus := .off, ssr := false, reflowPhase := .idle }
    else s
  else s

/-- The button debounce state machine: the switch (debounceState)
statement of loop(). -/
def debounceStep (s : OvenState) (now : ℕ) (rawPressed : Bool) : OvenState :=
  match s.debounceState with
  | .idle =>
    if rawPressed then
      { s with buttonStatus := .none, lastDebounceTime := now,
               debounceState := .check }
    else
      { s with buttonStatus := .none }
  | .check =>
    if rawPressed then
      if now - s.lastDebounceTime > DEBOUNCE_PERIOD_MIN then
        { s with debounceState := .release }
      else s
    else
      { s with debounceState := .idle }
  | .release =>
    if rawPressed then s
    else
      { s with buttonStatus := .b1, debounceState := .idle }

/-- The defensive clause at the end of loop(): make sure the SSR is low
whenever the oven status is off. -/
def ssrSafetyStep (s : OvenState) : OvenState :=
  if s.ovenStatus = .off then { s with ssr := false } else s

/-- The state handed to the reflow switch: the read block followed by the
display block. -/
def preSwitch (s : OvenState) (i : LoopInput) : OvenState :=
  displayStep (readStep s i.now i.sensor) i.now

/-- The tail of loop() after the reflow switch: the cancel check, the
debounce state machine, and the SSR safety clause, in source order. -/
def postSwitch (v : OvenState) (i : LoopInput) : OvenState :=
  ssrSafetyStep (debounceStep (cancelStep v) i.now i.rawPressed)

/-- One full iteration of loop(), in source order: thermocouple read,
display timer, reflow state machine, cancel check, debounce state machine,
SSR safety clause. -/
def loopStep (s : OvenState) (i : LoopInput) : OvenState :=
  postSwitch (reflowStep (preSwitch s i) i.now) i

/-- The state at the end of setup(): C++ zero-initialized globals (phase
idle, status off, debounce idle, no button event, temperature 0), both
output pins driven low, and both schedule timers set to the current clock. -/
def initState (t0 : ℕ) : OvenState :=
  { nextRead := t0, nextDisplay := t0, phaseStartTime := 0, temp := 0,
    phaseStartTemp := 0, buzzerPeriod := 0, reflowPhase := .idle,
    ovenStatus := .off, debounceState := .idle, lastDebounceTime := 0,
    buttonStatus := .none, ssr := false, buzzer := false }

/-- Run the debounce state machine over a trace of (clock, rawPressed)
samples, one loop iteration per sample. -/
def debounceRun (s : OvenState) : List (ℕ × Bool) → OvenState
  | [] => s
  | (t, p) :: rest => debounceRun (debounceStep s t p) rest

/-- Count the iterations of a trace at whose end buttonStatus = BUTTON_1,
i.e. the iterations that hand a validated press event to the consumer
(the reflow controller reads buttonStatus at the start of the following
iteration, before the debounce machine runs again). -/
def pressEvents (s : OvenState) : List (ℕ × Bool) → ℕ
  | [] => 0
  | (t, p) :: rest =>
    (if (debounceStep s t p).buttonStatus = .b1 then 1 else 0) +
      pressEvents (debounceStep s t p) rest

/-- The pressed part of a physical press episode as seen by the polling
loop: a first pressed sample at time t0 and further pressed samples at the
times in ts. -/
def pressedPrefix (t0 : ℕ) (ts : List ℕ) : List (ℕ × Bool) :=
  (t0, true) :: ts.map fun t => (t, true)

/-- A full press-and-release episode: the pressed samples followed by a
released sample at time tr. -/
def pressTrace (t0 : ℕ) (ts : List ℕ) (tr : ℕ) : List (ℕ × Bool) :=
  pressedPrefix t0 ts ++ [(tr, false)]

/-- A loop state at the start of the iteration that consumes a validated
start press: idle, oven off, a prior 25-degree reading stored, BUTTON_1
pending from the debounce machine of the previous iteration. Reachable
from initState by one 25-degree read and one pressed-held-released button
episode. -/
def idlePressState : OvenState :=
  { nextRead := 1000, nextDisplay := 1400, phaseStartTime := 0, temp := 25,
    phaseStartTemp := 0, buzzerPeriod := 0, reflowPhase := .idle,
    ovenStatus := .off, debounceState := .idle, lastDebounceTime := 800,
    buttonStatus := .b1, ssr := false, buzzer := false }

/-- An iteration input on which neither the read timer nor the display
timer of idlePressState is due. -/
def idlePressInput : LoopInput := ⟨900, 25, false⟩

/-- A loop state inside the soak phase: oven on, 120 degrees, soak begun
at clock 0, heater currently energized, no button event pending. -/
def soakOnState : OvenState :=
  { nextRead := 100000, nextDisplay := 100000, phaseStartTime := 0, temp := 120,
    phaseStartTemp := 60, buzzerPeriod := 0, reflowPhase := .soak,
    ovenStatus := .on, debounceState := .idle, lastDebounceTime := 0,
    buttonStatus := .none, ssr := true, buzzer := false }

/-- An iteration input inside the 90000 ms soak window of soakOnState. -/
def soakOnInput : LoopInput := ⟨50, 120, false⟩

/-- A loop state holding in the error phase with the fault code still
stored as the last reading. -/
def errorHoldState : OvenState :=
  { initState 0 with reflowPhase := .error, temp := FAULT_OPEN }

/-- The soak state with a validated press pending. -/
def soakPressState : OvenState :=
  { soakOnState with buttonStatus := .b1 }

/-- A preheat state whose temperature has risen at exactly RAMPUP degrees
per second since the phase started: 6 degrees in the 2000 ms before the
iteration at clock 2000. -/
def rampEqState : OvenState :=
  { nextRead := 100000, nextDisplay := 100000, phaseStartTime := 0, temp := 26,
    phaseStartTemp := 20, buzzerPeriod := 0, reflowPhase := .preheat,
    ovenStatus := .on, debounceState := .idle, lastDebounceTime := 0,
    buttonStatus := .none, ssr := true, buzzer := false }

/-- A cool-phase state that has dropped to 95 degrees, at or below
COOL_TEMPERATURE. -/
def coolDoneState : OvenState :=
  { nextRead := 100000, nextDisplay := 100000, phaseStartTime := 0, temp := 95,
    phaseStartTemp := 230, buzzerPeriod := 0, reflowPhase := .cool,
    ovenStatus := .off, debounceState := .idle, lastDebounceTime := 0,
    buttonStatus := .none, ssr := false, buzzer := false }

/-- A peak state whose 50000 ms peak period has expired, with a validated
press pending in the same iteration. -/
def peakTimeoutPressState : OvenState :=
  { nextRead := 1000000, nextDisplay := 1000000, phaseStartTime := 0, temp := 230,
    phaseStartTemp := 180, buzzerPeriod := 0, reflowPhase := .peak,
    ovenStatus := .on, debounceState := .idle, lastDebounceTime := 0,
    buttonStatus := .b1, ssr := true, buzzer := false }

/-- An iteration input just past the peak period of peakTimeoutPressState. -/
def peakTimeoutPressInput : LoopInput := ⟨50001, 230, false⟩

/-- A preheat state, SSR energized, that has just reached SOAK_TEMPERATURE,
with a validated press pending in the same iteration. -/
def preheatExitPressState : OvenState :=
  { nextRead := 1000000, nextDisplay := 1000000, phaseStartTime := 0, temp := 150,
    phaseStartTemp := 40, buzzerPeriod := 0, reflowPhase := .preheat,
    ovenStatus := .on, debounceState := .idle, lastDebounceTime := 0,
    buttonStatus := .b1, ssr := true, buzzer := false }

/-- The same preheat-exit state with no press pending. -/
def preheatExitState : OvenState :=
  { preheatExitPressState with buttonStatus := .none }

/-- An iteration input during which neither timer of the preheat-exit
states is due. -/
def preheatExitInput : LoopInput := ⟨100, 150, false⟩

/-! Projection lemmas: which fields each block of loop() leaves alone. -/

lemma ssrSafetyStep_ovenStatus (s : OvenState) :
    (ssrSafetyStep s).ovenStatus = s.ovenStatus := by
  unfold ssrSafetyStep; split_ifs <;> rfl

lemma ssrSafetyStep_reflowPhase (s : OvenState) :
    (ssrSafetyStep s).reflowPhase = s.reflowPhase := by
  unfold ssrSafetyStep; split_ifs <;> rfl

lemma ssrSafetyStep_phaseStartTime (s : OvenState) :
    (ssrSafetyStep s).phaseStartTime = s.phaseStartTime := by
  unfold ssrSafetyStep; split_ifs <;> rfl

lemma ssrSafetyStep_phaseStartTemp (s : OvenState) :
    (ssrSafetyStep s).phaseStartTemp = s.phaseStartTemp := by
  unfold ssrSafetyStep; split_ifs <;> rfl

lemma ssrSafetyStep_ssr_of_off (s : OvenState) (h : s.ovenStatus = .off) :
    (ssrSafetyStep s).ssr = false := by
  unfold ssrSafetyStep; rw [if_pos h]

lemma ssrSafetyStep_of_on (s : OvenState) (h : s.ovenStatus = .on) :
    ssrSafetyStep s = s := by
  simp [ssrSafetyStep, h]

lemma debounceStep_reflowPhase (s : OvenState) (now : ℕ) (p : Bool) :
    (debounceStep s now p).reflowPhase = s.reflowPhase := by
  unfold debounceStep; split <;> split_ifs <;> rfl

lemma debounceStep_ovenStatus (s : OvenState) (now : ℕ) (p : Bool) :
    (debounceStep s now p).ovenStatus = s.ovenStatus := by
  unfold debounceStep; split <;> split_ifs <;> rfl

lemma debounceStep_ssr (s : OvenState) (now : ℕ) (p : Bool) :
    (debounceStep s now p).ssr = s.ssr := by
  unfold debounceStep; split <;> split_ifs <;> rfl

lemma debounceStep_buzzer (s : OvenState) (now : ℕ) (p : Bool) :
    (debounceStep s now p).buzzer = s.buzzer := by
  unfold debounceStep; split <;> split_ifs <;> rfl

lemma debounceStep_phaseStartTime (s : OvenState) (now : ℕ) (p : Bool) :
    (debounceStep s now p).phaseStartTime = s.phaseStartTime := by
  unfold debounceStep; split <;> split_ifs <;> rfl

lemma debounceStep_phaseStartTemp (s : OvenState) (now : ℕ) (p : Bool) :
    (debounceStep s now p).phaseStartTemp = s.phaseStartTemp := by
  unfold debounceStep; split <;> split_ifs <;> rfl

lemma cancelStep_of_off (s : OvenState) (h : s.ovenStatus = .off) :
    cancelStep s = s := by
  unfold cancelStep
  split_ifs with h1 h2
  · rw [h] at h2; exact OvenStatus.noConfusion h2
  · rfl
  · rfl

lemma cancelStep_on_eq (s : OvenState) (h : (cancelStep s).ovenStatus = .on) :
    cancelStep s = s := by
  unfold cancelStep at h ⊢
  split_ifs at h ⊢ with h1 h2 <;> rfl

lemma cancelStep_cancel (s : OvenState) (h1 : s.buttonStatus = .b1)
    (h2 : s.ovenStatus = .on) :
    cancelStep s = { s with ovenStatus := .off, ssr := false, reflowPhase := .idle } := by
  unfold cancelStep
  rw [if_pos h1, if_pos h2]

lemma preSwitch_ssr (s : OvenState) (i : LoopInput) :
    (preSwitch s i).ssr = s.ssr := by
  unfold preSwitch displayStep readStep; split_ifs <;> rfl

lemma preSwitch_buttonStatus (s : OvenState) (i : LoopInput) :
    (preSwitch s i).buttonStatus = s.buttonStatus := by
  unfold preSwitch displayStep readStep; split_ifs <;> rfl

lemma preSwitch_phase_cases (s : OvenState) (i : LoopInput) :
    (preSwitch s i).reflowPhase = s.reflowPhase ∨
    (preSwitch s i).reflowPhase = .error := by
  unfold preSwitch displayStep readStep
  split_ifs <;> simp

lemma reflowStep_buttonStatus (s : OvenState) (now : ℕ) :
    (reflowStep s now).buttonStatus = s.buttonStatus := by
  cases hp : s.reflowPhase <;> simp only [reflowStep, hp] <;> split_ifs <;> rfl

lemma reflowStep_on_active (s : OvenState) (now : ℕ)
    (h : (reflowStep s now).ovenStatus = .on) :
    (reflowStep s now).reflowPhase = .preheat ∨
    (reflowStep s now).reflowPhase = .soak ∨
    (reflowStep s now).reflowPhase = .reflow ∨
    (reflowStep s now).reflowPhase = .peak := by
  cases hp : s.reflowPhase <;>
    simp only [reflowStep, hp] at h ⊢ <;>
    split_ifs at h ⊢ <;> simp_all

lemma displayStep_reflowPhase (s : OvenState) (now : ℕ) :
    (displayStep s now).reflowPhase = s.reflowPhase := by
  unfold displayStep; split_ifs <;> rfl

lemma displayStep_ovenStatus (s : OvenState) (now : ℕ) :
    (displayStep s now).ovenStatus = s.ovenStatus := by
  unfold displayStep; split_ifs <;> rfl

lemma displayStep_temp (s : OvenState) (now : ℕ) :
    (displayStep s now).temp = s.temp := by
  unfold displayStep; split_ifs <;> rfl

lemma displayStep_buttonStatus (s : OvenState) (now : ℕ) :
    (displayStep s now).buttonStatus = s.buttonStatus := by
  unfold displayStep; split_ifs <;> rfl

lemma displayStep_phaseStartTime (s : OvenState) (now : ℕ) :
    (displayStep s now).phaseStartTime = s.phaseStartTime := by
  unfold displayStep; split_ifs <;> rfl

lemma displayStep_phaseStartTemp (s : OvenState) (now : ℕ) :
    (displayStep s now).phaseStartTemp = s.phaseStartTemp := by
  unfold displayStep; split_ifs <;> rfl

lemma displayStep_ssr (s : OvenState) (now : ℕ) :
    (displayStep s now).ssr = s.ssr := by
  unfold displayStep; split_ifs <;> rfl

/-- Once the reflow switch has produced a state with the oven off, the rest
of the iteration keeps the phase and the phase context, keeps the status
off, and leaves the SSR driven low by the safety clause. -/
lemma postSwitch_of_off (v : OvenState) (i : LoopInput)
    (h : v.ovenStatus = .off) :
    (postSwitch v i).reflowPhase = v.reflowPhase ∧
    (postSwitch v i).ovenStatus = .off ∧
    (postSwitch v i).ssr = false ∧
    (postSwitch v i).phaseStartTime = v.phaseStartTime ∧
    (postSwitch v i).phaseStartTemp = v.phaseStartTemp := by
  unfold postSwitch
  rw [cancelStep_of_off _ h]
  refine ⟨?_, ?_, ?_, ?_, ?_⟩
  · rw [ssrSafetyStep_reflowPhase, debounceStep_reflowPhase]
  · rw [ssrSafetyStep_ovenStatus, debounceStep_ovenStatus, h]
  · exact ssrSafetyStep_ssr_of_off _ (by rw [debounceStep_ovenStatus, h])
  · rw [ssrSafetyStep_phaseStartTime, debounceStep_phaseStartTime]
  · rw [ssrSafetyStep_phaseStartTemp, debounceStep_phaseStartTemp]

/-- When the reflow switch leaves the oven on and a validated press is
pending, the cancel check fires: the iteration ends idle, off, SSR low. -/
lemma postSwitch_cancel (v : OvenState) (i : LoopInput)
    (h1 : v.buttonStatus = .b1) (h2 : v.ovenStatus = .on) :
    (postSwitch v i).reflowPhase = .idle ∧
    (postSwitch v i).ovenStatus = .off ∧
    (postSwitch v i).ssr = false := by
  unfold postSwitch
  rw [cancelStep_cancel _ h1 h2]
  refine ⟨?_, ?_, ?_⟩
  · rw [ssrSafetyStep_reflowPhase, debounceStep_reflowPhase]
  · rw [ssrSafetyStep_ovenStatus, debounceStep_ovenStatus]
  · exact ssrSafetyStep_ssr_of_off _ (by rw [debounceStep_ovenStatus])

/-- When the reflow switch leaves the oven on and no BUTTON_1 press is
pending, the rest of the iteration changes neither phase, status nor SSR. -/
lemma postSwitch_on_nopress (v : OvenState) (i : LoopInput)
    (h1 : v.buttonStatus ≠ .b1) (h2 : v.ovenStatus = .on) :
    (postSwitch v i).reflowPhase = v.reflowPhase ∧
    (postSwitch v i).ovenStatus = .on ∧
    (postSwitch v i).ssr = v.ssr := by
  unfold postSwitch
  have hc : cancelStep v = v := by unfold cancelStep; rw [if_neg h1]
  rw [hc]
  have hdb : (debounceStep v i.now i.rawPressed).ovenStatus = .on := by
    rw [debounceStep_ovenStatus, h2]
  rw [ssrSafetyStep_of_on _ hdb]
  exact ⟨debounceStep_reflowPhase v i.now i.rawPressed, hdb,
    debounceStep_ssr v i.now i.rawPressed⟩

/-- A reading taken this iteration with a fault code: the sampling block
advances the read timer, stores the reading, and forces error plus off. -/
lemma readStep_fault (s : OvenState) (now : ℕ) (sensor : ℚ)
    (h1 : now > s.nextRead) (h2 : isFault sensor) :
    readStep s now sensor =
      { s with nextRead := s.nextRead + READ_INTERVAL_TIME, temp := sensor,
               reflowPhase := .error, ovenStatus := .off } := by
  unfold readStep
  rw [if_pos h1, if_pos h2]

/-- A fault-free reading taken this iteration only advances the read timer
and stores the reading. -/
lemma readStep_ok (s : OvenState) (now : ℕ) (sensor : ℚ)
    (h1 : now > s.nextRead) (h2 : ¬ isFault sensor) :
    readStep s now sensor =
      { s with nextRead := s.nextRead + READ_INTERVAL_TIME, temp := sensor } := by
  unfold readStep
  rw [if_pos h1, if_neg h2]

/-- The error case of the switch while the stored reading is still a fault
code: stay in error, oven off. -/
lemma reflowStep_error_fault (u : OvenState) (now : ℕ)
    (hu : u.reflowPhase = .error) (hf : isFault u.temp) :
    reflowStep u now = { u with ovenStatus := .off } := by
  simp only [reflowStep, hu]
  rw [if_pos hf]

/-- The error case of the switch once the stored reading is fault-free:
clear to idle, oven off. -/
lemma reflowStep_error_ok (u : OvenState) (now : ℕ)
    (hu : u.reflowPhase = .error) (hf : ¬ isFault u.temp) :
    reflowStep u now = { u with ovenStatus := .off, reflowPhase := .idle } := by
  simp only [reflowStep, hu]
  rw [if_neg hf]

/-- After a fault read this iteration, the state handed to the switch is in
error with the fault code stored. -/
lemma preSwitch_fault (s : OvenState) (i : LoopInput)
    (h1 : i.now > s.nextRead) (h2 : isFault i.sensor) :
    (preSwitch s i).reflowPhase = .error ∧ (preSwitch s i).temp = i.sensor := by
  unfold preSwitch
  rw [readStep_fault s i.now i.sensor h1 h2, displayStep_reflowPhase, displayStep_temp]
  exact ⟨rfl, rfl⟩

/-- After a fault-free read this iteration, the state handed to the switch
keeps its phase and stores the new reading. -/
lemma preSwitch_read_ok (s : OvenState) (i : LoopInput)
    (h1 : i.now > s.nextRead) (h2 : ¬ isFault i.sensor) :
    (preSwitch s i).reflowPhase = s.reflowPhase ∧ (preSwitch s i).temp = i.sensor := by
  unfold preSwitch
  rw [readStep_ok s i.now i.sensor h1 h2, displayStep_reflowPhase, displayStep_temp]
  exact ⟨rfl, rfl⟩

/-- A fault reading this iteration leaves the whole iteration in error with
the oven off. -/
lemma loopStep_fault (s : OvenState) (i : LoopInput)
    (h1 : i.now > s.nextRead) (h2 : isFault i.sensor) :
    (loopStep s i).reflowPhase = .error ∧ (loopStep s i).ovenStatus = .off := by
  have hu := preSwitch_fault s i h1 h2
  have hf : isFault (preSwitch s i).temp := by rw [hu.2]; exact h2
  unfold loopStep
  rw [reflowStep_error_fault (preSwitch s i) i.now hu.1 hf]
  have hp := postSwitch_of_off { (preSwitch s i) with ovenStatus := .off } i rfl
  exact ⟨by rw [hp.1]; exact hu.1, hp.2.1⟩

/-- Holding in error, a single fault-free read clears back to idle within
the same iteration. -/
lemma loopStep_error_clears (s : OvenState) (i : LoopInput)
    (h0 : s.reflowPhase = .error) (h1 : i.now > s.nextRead)
    (h2 : ¬ isFault i.sensor) :
    (loopStep s i).reflowPhase = .idle := by
  have hu := preSwitch_read_ok s i h1 h2
  have hphase : (preSwitch s i).reflowPhase = .error := by rw [hu.1]; exact h0
  have hf : ¬ isFault (preSwitch s i).temp := by rw [hu.2]; exact h2
  unfold loopStep
  rw [reflowStep_error_ok (preSwitch s i) i.now hphase hf]
  have hp := postSwitch_of_off { (preSwitch s i) with ovenStatus := .off, reflowPhase := .idle } i rfl
  rw [hp.1]

/-- C1 (confirmed): for every state and every loop iteration, at the end of
the iteration the heater output (SSR pin) is off whenever OvenStatus = Off,
regardless of the phase and of whether the iteration went through the
state-machine table, the fault path, or the cancel path. The end-of-loop
safety clause is the last write of the iteration, so the invariant holds
for arbitrary (in particular all reachable) states. -/
theorem heater_off_when_oven_off (s : OvenState) (i : LoopInput)
    (h : (loopStep s i).ovenStatus = .off) :
    (loopStep s i).ssr = false := by
  unfold loopStep postSwitch at h ⊢
  rw [ssrSafetyStep_ovenStatus] at h
  exact ssrSafetyStep_ssr_of_off _ h

/-- Witness for C1 at a concrete iteration from the initial state. -/
theorem heater_off_when_oven_off_witness :
    (loopStep (initState 0) ⟨5, 25, false⟩).ssr = false :=
  heater_off_when_oven_off (initState 0) ⟨5, 25, false⟩ (by decide)

/-- C2 (amended): at the end of every iteration, if OvenStatus = On then
ReflowPhase is one of Preheat, Soak, Reflow, Peak: no execution path leaves
the status on with the phase Idle, Complete, TooHot, Error or Cool. (The
converse direction of the claimed biconditional fails: see the
counterexample for the iteration that starts the process from Idle.) -/
theorem oven_on_implies_active_phase (s : OvenState) (i : LoopInput)
    (h : (loopStep s i).ovenStatus = .on) :
    (loopStep s i).reflowPhase = .preheat ∨
    (loopStep s i).reflowPhase = .soak ∨
    (loopStep s i).reflowPhase = .reflow ∨
    (loopStep s i).reflowPhase = .peak := by
  unfold loopStep postSwitch at h ⊢
  rw [ssrSafetyStep_ovenStatus, debounceStep_ovenStatus] at h
  simp only [ssrSafetyStep_reflowPhase, debounceStep_reflowPhase]
  have hc := cancelStep_on_eq _ h
  rw [hc] at h ⊢
  exact reflowStep_on_active _ _ h

/-- Witness for C2 (amended) at a concrete soak-phase iteration. -/
theorem oven_on_implies_active_phase_witness :
    (loopStep soakOnState soakOnInput).reflowPhase = .preheat ∨
    (loopStep soakOnState soakOnInput).reflowPhase = .soak ∨
    (loopStep soakOnState soakOnInput).reflowPhase = .reflow ∨
    (loopStep soakOnState soakOnInput).reflowPhase = .peak :=
  oven_on_implies_active_phase soakOnState soakOnInput (by decide)

/-- Counterexample for C2 as stated: on the reachable iteration that
consumes a validated press in Idle with the oven cool, the Idle case sets
OvenStatus = Off and then enters Preheat, so the iteration ends with
ReflowPhase = Preheat while OvenStatus = Off: status On is not equivalent
to the phase being one of Preheat, Soak, Reflow, Peak. -/
theorem oven_status_phase_cex :
    (loopStep idlePressState idlePressInput).reflowPhase = .preheat ∧
    (loopStep idlePressState idlePressInput).ovenStatus = .off := by
  decide

/-- C3 (confirmed): a sensor read yielding any of the three fault codes
forces ReflowPhase = Error and OvenStatus = Off in that same iteration,
already in the sampling block before the transition table runs, whatever
the current phase was; and once in Error, a single subsequent fault-free
read transitions back to Idle within its iteration. -/
theorem fault_forces_error (s : OvenState) (i : LoopInput) :
    (i.now > s.nextRead → isFault i.sensor →
      (readStep s i.now i.sensor).reflowPhase = .error ∧
      (readStep s i.now i.sensor).ovenStatus = .off ∧
      (loopStep s i).reflowPhase = .error ∧
      (loopStep s i).ovenStatus = .off) ∧
    (s.reflowPhase = .error → i.now > s.nextRead → ¬ isFault i.sensor →
      (loopStep s i).reflowPhase = .idle) := by
  refine ⟨fun h1 h2 => ?_, fun h0 h1 h2 => loopStep_error_clears s i h0 h1 h2⟩
  have hl := loopStep_fault s i h1 h2
  rw [readStep_fault s i.now i.sensor h1 h2]
  exact ⟨rfl, rfl, hl.1, hl.2⟩

/-- Witness for C3: a FAULT_OPEN read in the first iteration forces error,
and from the error-holding state a clean 25-degree read returns to idle. -/
theorem fault_forces_error_witness :
    (loopStep (initState 0) ⟨5, FAULT_OPEN, false⟩).reflowPhase = .error ∧
    (loopStep errorHoldState ⟨5, 25, false⟩).reflowPhase = .idle :=
  ⟨((fault_forces_error (initState 0) ⟨5, FAULT_OPEN, false⟩).1
      (by decide) (by decide)).2.2.1,
    (fault_forces_error errorHoldState ⟨5, 25, false⟩).2 rfl (by decide) (by decide)⟩

lemma reflowStep_on_of_preheat (u : OvenState) (now : ℕ)
    (h : u.reflowPhase = .preheat) : (reflowStep u now).ovenStatus = .on := by
  simp only [reflowStep, h]; split_ifs <;> rfl

lemma reflowStep_on_of_soak (u : OvenState) (now : ℕ)
    (h : u.reflowPhase = .soak) : (reflowStep u now).ovenStatus = .on := by
  simp only [reflowStep, h]; split_ifs <;> rfl

lemma reflowStep_on_of_reflow (u : OvenState) (now : ℕ)
    (h : u.reflowPhase = .reflow) : (reflowStep u now).ovenStatus = .on := by
  simp only [reflowStep, h]; split_ifs <;> rfl

lemma reflowStep_on_of_peak_within (u : OvenState) (now : ℕ)
    (h : u.reflowPhase = .peak) (hw : now ≤ u.phaseStartTime + PEAK_PERIOD) :
    (reflowStep u now).ovenStatus = .on := by
  simp only [reflowStep, h]
  rw [if_neg (not_lt.mpr hw)]
  split_ifs <;> rfl

lemma reflowStep_off_of_inactive (u : OvenState) (now : ℕ)
    (h : u.reflowPhase = .tooHot ∨ u.reflowPhase = .error ∨
         u.reflowPhase = .cool ∨ u.reflowPhase = .complete) :
    (reflowStep u now).ovenStatus = .off := by
  rcases h with h | h | h | h <;> simp only [reflowStep, h] <;> split_ifs <;> rfl

/-- The sampling and display blocks neither read nor change the pending
button event: feeding them a state with a different buttonStatus changes
exactly that field of their result. -/
lemma preSwitch_button_congr (s : OvenState) (i : LoopInput) (b : Button) :
    preSwitch { s with buttonStatus := b } i =
      { (preSwitch s i) with buttonStatus := b } := by
  unfold preSwitch readStep displayStep
  by_cases h1 : i.now > s.nextRead <;> by_cases h2 : isFault i.sensor <;>
    by_cases h3 : i.now > s.nextDisplay <;> simp [h1, h2, h3]

/-- The four heater-off holding cases of the switch never read the pending
button event. -/
lemma reflowStep_button_congr (u : OvenState) (now : ℕ) (b : Button)
    (h : u.reflowPhase = .tooHot ∨ u.reflowPhase = .error ∨
         u.reflowPhase = .cool ∨ u.reflowPhase = .complete) :
    reflowStep { u with buttonStatus := b } now =
      { (reflowStep u now) with buttonStatus := b } := by
  rcases h with h | h | h | h <;> simp only [reflowStep, h] <;> split_ifs <;> rfl

/-- When no press is pending at the start of the iteration and the switch
leaves the oven on, the tail of the iteration is the identity on phase,
status and SSR. -/
lemma loopStep_on_nopress (s : OvenState) (i : LoopInput)
    (hbtn : s.buttonStatus ≠ .b1)
    (hon : (reflowStep (preSwitch s i) i.now).ovenStatus = .on) :
    (loopStep s i).reflowPhase = (reflowStep (preSwitch s i) i.now).reflowPhase ∧
    (loopStep s i).ovenStatus = .on ∧
    (loopStep s i).ssr = (reflowStep (preSwitch s i) i.now).ssr := by
  unfold loopStep
  exact postSwitch_on_nopress _ i
    (by rw [reflowStep_buttonStatus, preSwitch_buttonStatus]; exact hbtn) hon

/-- C4 (amended): a validated press observed in an iteration that enters
the transition table in Preheat, Soak or Reflow, or in Peak while the peak
period has not yet expired, forces the heater off and ReflowPhase = Idle by
the end of that iteration; and a press observed while OvenStatus = Off in
TooHot, Error, Cool or Complete causes no phase change (the iteration ends
in the same phase as it would without the press). In Peak with the period
expired, the transition to Cool wins and the press is discarded: see the
counterexample. -/
theorem press_cancel (s : OvenState) (i : LoopInput) :
    (s.buttonStatus = .b1 →
      ((preSwitch s i).reflowPhase = .preheat ∨
       (preSwitch s i).reflowPhase = .soak ∨
       (preSwitch s i).reflowPhase = .reflow ∨
       ((preSwitch s i).reflowPhase = .peak ∧
        i.now ≤ (preSwitch s i).phaseStartTime + PEAK_PERIOD)) →
      (loopStep s i).reflowPhase = .idle ∧
      (loopStep s i).ovenStatus = .off ∧
      (loopStep s i).ssr = false) ∧
    (s.buttonStatus = .b1 → s.ovenStatus = .off →
      (s.reflowPhase = .tooHot ∨ s.reflowPhase = .error ∨
       s.reflowPhase = .cool ∨ s.reflowPhase = .complete) →
      (loopStep s i).reflowPhase =
        (loopStep { s with buttonStatus := Button.none } i).reflowPhase) := by
  constructor
  · intro hb hph
    have hv1 : (reflowStep (preSwitch s i) i.now).buttonStatus = .b1 := by
      rw [reflowStep_buttonStatus, preSwitch_buttonStatus]; exact hb
    have hv2 : (reflowStep (preSwitch s i) i.now).ovenStatus = .on := by
      rcases hph with h | h | h | ⟨h, hw⟩
      · exact reflowStep_on_of_preheat _ _ h
      · exact reflowStep_on_of_soak _ _ h
      · exact reflowStep_on_of_reflow _ _ h
      · exact reflowStep_on_of_peak_within _ _ h hw
    unfold loopStep
    exact postSwitch_cancel _ i hv1 hv2
  · intro hb hoff h4
    have h4p : (preSwitch s i).reflowPhase = .tooHot ∨
        (preSwitch s i).reflowPhase = .error ∨
        (preSwitch s i).reflowPhase = .cool ∨
        (preSwitch s i).reflowPhase = .complete := by
      rcases preSwitch_phase_cases s i with hp | hp
      · rw [hp]; exact h4
      · exact Or.inr (Or.inl hp)
    have e1 := preSwitch_button_congr s i Button.none
    have e2 := reflowStep_button_congr (preSwitch s i) i.now Button.none h4p
    have hvoff := reflowStep_off_of_inactive (preSwitch s i) i.now h4p
    unfold loopStep
    rw [e1, e2]
    have hA := postSwitch_of_off (reflowStep (preSwitch s i) i.now) i hvoff
    have hB := postSwitch_of_off
      { (reflowStep (preSwitch s i) i.now) with buttonStatus := Button.none } i hvoff
    rw [hA.1, hB.1]

/-- Witness for C4: a press pending during a soak iteration cancels to
idle, off, SSR low. -/
theorem press_cancel_witness :
    (loopStep soakPressState soakOnInput).reflowPhase = .idle ∧
    (loopStep soakPressState soakOnInput).ovenStatus = .off ∧
    (loopStep soakPressState soakOnInput).ssr = false :=
  (press_cancel soakPressState soakOnInput).1 rfl (by decide)

/-- Counterexample for C4 as stated: in Peak (OvenStatus = On) with the
peak period expired, a pending validated press does not force Idle: the
switch transitions to Cool and sets the status off before the cancel check
runs, so the press is swallowed and the iteration ends in Cool. -/
theorem press_cancel_cex :
    peakTimeoutPressState.buttonStatus = .b1 ∧
    peakTimeoutPressState.ovenStatus = .on ∧
    peakTimeoutPressState.reflowPhase = .peak ∧
    (loopStep peakTimeoutPressState peakTimeoutPressInput).reflowPhase = .cool := by
  decide

/-- C5 (confirmed): in Preheat and Reflow, on every iteration where the
phase-exit temperature is not yet reached, the switch drives the heater on
exactly when currentTemp - phaseStartTemp <
(elapsedMillisSincePhaseStart / 1000) * RAMPUP, and at exact equality the
strict comparison is false and the heater is driven off: a pure threshold
with no hysteresis band. (Doubles are modelled as rationals; the source
computes elapsed * RAMPUP / 1000, equal to the claimed form.) -/
theorem ramp_rule_threshold (s : OvenState) (now : ℕ)
    (hph : s.reflowPhase = .preheat ∨ s.reflowPhase = .reflow)
    (hpre : s.reflowPhase = .preheat → s.temp < SOAK_TEMPERATURE)
    (href : s.reflowPhase = .reflow → s.temp < PEAK_TEMPERATURE) :
    ((reflowStep s now).ssr = true ↔
      s.temp - s.phaseStartTemp <
        ((now - s.phaseStartTime : ℕ) : ℚ) / 1000 * RAMPUP) ∧
    (s.temp - s.phaseStartTemp =
        ((now - s.phaseStartTime : ℕ) : ℚ) / 1000 * RAMPUP →
      (reflowStep s now).ssr = false) := by
  have hform : ((now - s.phaseStartTime : ℕ) : ℚ) / 1000 * RAMPUP =
      ((now - s.phaseStartTime : ℕ) : ℚ) * RAMPUP / 1000 := by ring
  rcases hph with h | h
  · have ht := hpre h
    constructor
    · simp only [reflowStep, h]
      rw [if_neg (not_le.mpr ht), hform]
      split_ifs with hc
      · simp [hc]
      · simp [hc]
    · intro he
      have hnc : ¬ (s.temp - s.phaseStartTemp <
          ((now - s.phaseStartTime : ℕ) : ℚ) * RAMPUP / 1000) := by
        rw [← hform, ← he]; exact lt_irrefl _
      simp only [reflowStep, h]
      rw [if_neg (not_le.mpr ht), if_neg hnc]
  · have ht := href h
    constructor
    · simp only [reflowStep, h]
      rw [if_neg (not_le.mpr ht), hform]
      split_ifs with hc
      · simp [hc]
      · simp [hc]
    · intro he
      have hnc : ¬ (s.temp - s.phaseStartTemp <
          ((now - s.phaseStartTime : ℕ) : ℚ) * RAMPUP / 1000) := by
        rw [← hform, ← he]; exact lt_irrefl _
      simp only [reflowStep, h]
      rw [if_neg (not_le.mpr ht), if_neg hnc]

/-- Witness for C5 at the equality boundary: 6 degrees risen in exactly
2000 ms is exactly RAMPUP = 3 degrees per second, and the heater is driven
off. -/
theorem ramp_rule_threshold_witness :
    (reflowStep rampEqState 2000).ssr = false :=
  (ramp_rule_threshold rampEqState 2000 (Or.inl rfl)
      (fun _ => by norm_num [rampEqState, SOAK_TEMPERATURE])
      (fun h => absurd h (by decide))).2
    (by norm_num [rampEqState, RAMPUP])

/-- C6 (confirmed): in Soak, while now is at or before
phaseStartTime + 90000 the switch stays in Soak and drives the heater on
exactly when temp < SOAK_TEMPERATURE; the transition to Reflow fires only
when now is strictly past phaseStartTime + 90000, and it re-captures the
phase context (start time and start temperature). -/
theorem soak_phase_behavior (s : OvenState) (now : ℕ)
    (hph : s.reflowPhase = .soak) :
    (now ≤ s.phaseStartTime + SOAK_PERIOD →
      (reflowStep s now).reflowPhase = .soak ∧
      ((reflowStep s now).ssr = true ↔ s.temp < SOAK_TEMPERATURE)) ∧
    (now > s.phaseStartTime + SOAK_PERIOD →
      (reflowStep s now).reflowPhase = .reflow ∧
      (reflowStep s now).phaseStartTime = now ∧
      (reflowStep s now).phaseStartTemp = s.temp) := by
  constructor
  · intro hw
    simp only [reflowStep, hph]
    rw [if_neg (not_lt.mpr hw)]
    split_ifs with hc
    · exact ⟨rfl, by simp [hc]⟩
    · exact ⟨rfl, by simp [hc]⟩
  · intro hw
    simp only [reflowStep, hph]
    rw [if_pos hw]
    exact ⟨rfl, rfl, rfl⟩

/-- Witness for C6 inside the soak window. -/
theorem soak_phase_behavior_witness :
    (reflowStep soakOnState 50).reflowPhase = .soak ∧
    ((reflowStep soakOnState 50).ssr = true ↔
      soakOnState.temp < SOAK_TEMPERATURE) :=
  (soak_phase_behavior soakOnState 50 rfl).1 (by decide)

/-- C7 (confirmed): on entry to Complete from Cool with
temp ≤ COOL_TEMPERATURE the buzzer is turned on and the deadline
buzzerPeriod = now + 1000 is set; Complete keeps the buzzer unchanged (on)
while now ≤ buzzerPeriod and transitions to Idle with the buzzer off once
now is strictly past the deadline. -/
theorem complete_buzzer_behavior (s : OvenState) (now : ℕ) :
    (s.reflowPhase = .cool → s.temp ≤ COOL_TEMPERATURE →
      (reflowStep s now).reflowPhase = .complete ∧
      (reflowStep s now).buzzer = true ∧
      (reflowStep s now).buzzerPeriod = now + 1000) ∧
    (s.reflowPhase = .complete → now ≤ s.buzzerPeriod →
      (reflowStep s now).reflowPhase = .complete ∧
      (reflowStep s now).buzzer = s.buzzer) ∧
    (s.reflowPhase = .complete → now > s.buzzerPeriod →
      (reflowStep s now).reflowPhase = .idle ∧
      (reflowStep s now).buzzer = false) := by
  refine ⟨fun h1 h2 => ?_, fun h1 h2 => ?_, fun h1 h2 => ?_⟩
  · simp only [reflowStep, h1]
    rw [if_pos h2]
    exact ⟨rfl, rfl, rfl⟩
  · simp only [reflowStep, h1]
    rw [if_neg (not_lt.mpr h2)]
    exact ⟨rfl, rfl⟩
  · simp only [reflowStep, h1]
    rw [if_pos h2]
    exact ⟨rfl, rfl⟩

/-- Witness for C7: entry to Complete at clock 7000 arms the buzzer until
8000. -/
theorem complete_buzzer_behavior_witness :
    (reflowStep coolDoneState 7000).reflowPhase = .complete ∧
    (reflowStep coolDoneState 7000).buzzer = true ∧
    (reflowStep coolDoneState 7000).buzzerPeriod = 7000 + 1000 :=
  (complete_buzzer_behavior coolDoneState 7000).1 rfl (by decide)

lemma reflowStep_preheat_to_soak (u : OvenState) (now : ℕ)
    (h : u.reflowPhase = .preheat) (ht : u.temp ≥ SOAK_TEMPERATURE) :
    reflowStep u now =
      { u with ovenStatus := .on, phaseStartTime := now,
               phaseStartTemp := u.temp, reflowPhase := .soak } := by
  simp only [reflowStep, h]
  rw [if_pos ht]

lemma reflowStep_soak_to_reflow (u : OvenState) (now : ℕ)
    (h : u.reflowPhase = .soak) (ht : now > u.phaseStartTime + SOAK_PERIOD) :
    reflowStep u now =
      { u with ovenStatus := .on, phaseStartTime := now,
               phaseStartTemp := u.temp, reflowPhase := .reflow } := by
  simp only [reflowStep, h]
  rw [if_pos ht]

lemma reflowStep_reflow_to_peak (u : OvenState) (now : ℕ)
    (h : u.reflowPhase = .reflow) (ht : u.temp ≥ PEAK_TEMPERATURE) :
    reflowStep u now =
      { u with ovenStatus := .on, phaseStartTime := now,
               phaseStartTemp := u.temp, reflowPhase := .peak } := by
  simp only [reflowStep, h]
  rw [if_pos ht]

/-- C9 (amended): on any iteration in which a temperature- or
period-threshold transition fires out of Preheat, Soak or Reflow, and no
validated press is pending, no write to the SSR pin is performed: it keeps
the value it had from the previous iteration (possibly energized), and
because OvenStatus remains On the end-of-loop safety clause does not force
it low. If a press is pending in the same iteration, the cancel path does
write the pin low: see the counterexample. -/
theorem threshold_transition_keeps_ssr (s : OvenState) (i : LoopInput)
    (hbtn : s.buttonStatus ≠ .b1)
    (htr : ((preSwitch s i).reflowPhase = .preheat ∧
            (preSwitch s i).temp ≥ SOAK_TEMPERATURE) ∨
           ((preSwitch s i).reflowPhase = .soak ∧
            i.now > (preSwitch s i).phaseStartTime + SOAK_PERIOD) ∨
           ((preSwitch s i).reflowPhase = .reflow ∧
            (preSwitch s i).temp ≥ PEAK_TEMPERATURE)) :
    (loopStep s i).ssr = s.ssr ∧ (loopStep s i).ovenStatus = .on := by
  have hstep : reflowStep (preSwitch s i) i.now =
      { (preSwitch s i) with
          ovenStatus := .on, phaseStartTime := i.now,
          phaseStartTemp := (preSwitch s i).temp,
          reflowPhase := (reflowStep (preSwitch s i) i.now).reflowPhase } := by
    rcases htr with ⟨h, ht⟩ | ⟨h, ht⟩ | ⟨h, ht⟩
    · rw [reflowStep_preheat_to_soak (preSwitch s i) i.now h ht]
    · rw [reflowStep_soak_to_reflow (preSwitch s i) i.now h ht]
    · rw [reflowStep_reflow_to_peak (preSwitch s i) i.now h ht]
  have hon : (reflowStep (preSwitch s i) i.now).ovenStatus = .on := by
    rw [hstep]
  have hl := loopStep_on_nopress s i hbtn hon
  refine ⟨?_, hl.2.1⟩
  rw [hl.2.2, hstep]
  exact preSwitch_ssr s i

/-- Witness for C9: the iteration in which preheat reaches 150 degrees with
no press pending leaves the energized SSR untouched and the oven on. -/
theorem threshold_transition_keeps_ssr_witness :
    (loopStep preheatExitState preheatExitInput).ssr = preheatExitState.ssr ∧
    (loopStep preheatExitState preheatExitInput).ovenStatus = .on :=
  threshold_transition_keeps_ssr preheatExitState preheatExitInput
    (by decide) (by decide)

/-- Counterexample for C9 as stated: on the same preheat-to-soak threshold
iteration but with a validated press pending, the cancel path writes the
SSR pin low, so the pin does not keep its previous (energized) value and
the status does not remain On. -/
theorem threshold_transition_ssr_cex :
    preheatExitPressState.reflowPhase = .preheat ∧
    preheatExitPressState.temp ≥ SOAK_TEMPERATURE ∧
    preheatExitPressState.ssr = true ∧
    (loopStep preheatExitPressState preheatExitInput).ssr = false ∧
    (loopStep preheatExitPressState preheatExitInput).ovenStatus = .off := by
  decide

/-- C10 (confirmed): a validated press consumed in Idle with the stored
temperature below ROOM_TEMPERATURE starts the process: the iteration ends
in Preheat with phaseStartTime = now and phaseStartTemp equal to the
temperature seen by the switch, while OvenStatus stays Off for the rest of
the iteration, so the later cancel check (which requires OvenStatus = On)
does not fire and the same press is not also consumed as a cancel; the
safety clause leaves the SSR low. -/
theorem idle_press_starts_preheat (s : OvenState) (i : LoopInput)
    (hph : (preSwitch s i).reflowPhase = .idle)
    (hbtn : s.buttonStatus = .b1)
    (htemp : (preSwitch s i).temp < ROOM_TEMPERATURE) :
    (loopStep s i).reflowPhase = .preheat ∧
    (loopStep s i).ovenStatus = .off ∧
    (loopStep s i).phaseStartTime = i.now ∧
    (loopStep s i).phaseStartTemp = (preSwitch s i).temp ∧
    (loopStep s i).ssr = false := by
  have hbu : (preSwitch s i).buttonStatus = .b1 := by
    rw [preSwitch_buttonStatus]; exact hbtn
  have hv : reflowStep (preSwitch s i) i.now =
      { (preSwitch s i) with
          ovenStatus := .off, reflowPhase := .preheat,
          phaseStartTime := i.now, phaseStartTemp := (preSwitch s i).temp } := by
    simp only [reflowStep, hph]
    rw [if_neg (not_le.mpr htemp), if_pos hbu]
  unfold loopStep
  rw [hv]
  have hp := postSwitch_of_off
    { (preSwitch s i) with
        ovenStatus := OvenStatus.off, reflowPhase := ReflowPhase.preheat,
        phaseStartTime := i.now, phaseStartTemp := (preSwitch s i).temp } i rfl
  exact ⟨by rw [hp.1], hp.2.1, by rw [hp.2.2.2.1], by rw [hp.2.2.2.2], hp.2.2.1⟩

/-- Witness for C10 at the concrete start-press iteration. -/
theorem idle_press_starts_preheat_witness :
    (loopStep idlePressState idlePressInput).reflowPhase = .preheat ∧
    (loopStep idlePressState idlePressInput).ovenStatus = .off ∧
    (loopStep idlePressState idlePressInput).phaseStartTime = idlePressInput.now ∧
    (loopStep idlePressState idlePressInput).phaseStartTemp =
      (preSwitch idlePressState idlePressInput).temp ∧
    (loopStep idlePressState idlePressInput).ssr = false :=
  idle_press_starts_preheat idlePressState idlePressInput
    (by decide) rfl (by decide)

lemma debounceStep_idle_pressed (s : OvenState) (now : ℕ)
    (hd : s.debounceState = .idle) :
    debounceStep s now true =
      { s with buttonStatus := .none, lastDebounceTime := now,
               debounceState := .check } := by
  simp [debounceStep, hd]

lemma debounceStep_check_pressed_short (s : OvenState) (now : ℕ)
    (hd : s.debounceState = .check)
    (h : ¬ now - s.lastDebounceTime > DEBOUNCE_PERIOD_MIN) :
    debounceStep s now true = s := by
  simp [debounceStep, hd, h]

lemma debounceStep_check_pressed_long (s : OvenState) (now : ℕ)
    (hd : s.debounceState = .check)
    (h : now - s.lastDebounceTime > DEBOUNCE_PERIOD_MIN) :
    debounceStep s now true = { s with debounceState := .release } := by
  simp [debounceStep, hd, h]

lemma debounceStep_check_released (s : OvenState) (now : ℕ)
    (hd : s.debounceState = .check) :
    debounceStep s now false = { s with debounceState := .idle } := by
  simp [debounceStep, hd]

lemma debounceStep_release_pressed (s : OvenState) (now : ℕ)
    (hd : s.debounceState = .release) :
    debounceStep s now true = s := by
  simp [debounceStep, hd]

lemma debounceStep_release_released (s : OvenState) (now : ℕ)
    (hd : s.debounceState = .release) :
    debounceStep s now false =
      { s with buttonStatus := .b1, debounceState := .idle } := by
  simp [debounceStep, hd]

lemma debounceRun_append (s : OvenState) (l1 l2 : List (ℕ × Bool)) :
    debounceRun s (l1 ++ l2) = debounceRun (debounceRun s l1) l2 := by
  induction l1 generalizing s with
  | nil => rfl
  | cons hd tl ih =>
    obtain ⟨t, p⟩ := hd
    simpa [debounceRun] using ih (debounceStep s t p)

lemma pressEvents_append (s : OvenState) (l1 l2 : List (ℕ × Bool)) :
    pressEvents s (l1 ++ l2) =
      pressEvents s l1 + pressEvents (debounceRun s l1) l2 := by
  induction l1 generalizing s with
  | nil => simp [pressEvents, debounceRun]
  | cons hd tl ih =>
    obtain ⟨t, p⟩ := hd
    simp [pressEvents, debounceRun, ih (debounceStep s t p), Nat.add_assoc]

/-- Pressed samples fed to the release state change nothing and emit no
event. -/
lemma run_pressed_release (ts : List ℕ) :
    ∀ s : OvenState, s.debounceState = .release →
      debounceRun s (ts.map fun t => (t, true)) = s ∧
      (s.buttonStatus ≠ .b1 →
        pressEvents s (ts.map fun t => (t, true)) = 0) := by
  induction ts with
  | nil => exact fun s _ => ⟨rfl, fun _ => rfl⟩
  | cons t tl ih =>
    intro s hd
    have hstep := debounceStep_release_pressed s t hd
    refine ⟨?_, fun hb => ?_⟩
    · simp only [List.map_cons, debounceRun]
      rw [hstep]
      exact (ih s hd).1
    · simp only [List.map_cons, pressEvents]
      rw [hstep, if_neg hb, (ih s hd).2 hb]

/-- Pressed samples fed to the check state emit no event; the machine
advances to the release state exactly when some sample arrives strictly
more than DEBOUNCE_PERIOD_MIN after the recorded press instant. -/
lemma run_pressed_check (ts : List ℕ) :
    ∀ s : OvenState, s.debounceState = .check →
      debounceRun s (ts.map fun t => (t, true)) =
        (if ∃ t ∈ ts, t - s.lastDebounceTime > DEBOUNCE_PERIOD_MIN
         then { s with debounceState := .release } else s) ∧
      (s.buttonStatus ≠ .b1 →
        pressEvents s (ts.map fun t => (t, true)) = 0) := by
  induction ts with
  | nil =>
    intro s hd
    constructor
    · simp [debounceRun]
    · exact fun _ => rfl
  | cons t tl ih =>
    intro s hd
    by_cases hgt : t - s.lastDebounceTime > DEBOUNCE_PERIOD_MIN
    · have hstep := debounceStep_check_pressed_long s t hd hgt
      have hrel := run_pressed_release tl
        { s with debounceState := DebounceState.release } rfl
      refine ⟨?_, fun hb => ?_⟩
      · simp only [List.map_cons, debounceRun]
        rw [hstep, hrel.1, if_pos ⟨t, List.mem_cons_self t tl, hgt⟩]
      · simp only [List.map_cons, pressEvents]
        rw [hstep, if_neg hb, hrel.2 hb]
    · have hstep := debounceStep_check_pressed_short s t hd hgt
      have htl := ih s hd
      refine ⟨?_, fun hb => ?_⟩
      · simp only [List.map_cons, debounceRun]
        rw [hstep, htl.1]
        have hiff : (∃ x ∈ t :: tl, x - s.lastDebounceTime > DEBOUNCE_PERIOD_MIN)
            ↔ (∃ x ∈ tl, x - s.lastDebounceTime > DEBOUNCE_PERIOD_MIN) := by
          constructor
          · rintro ⟨x, hx, hgx⟩
            rcases List.mem_cons.mp hx with h1 | h1
            · exact absurd hgx (h1 ▸ hgt)
            · exact ⟨x, h1, hgx⟩
          · rintro ⟨x, hx, hgx⟩
            exact ⟨x, List.mem_cons_of_mem t hx, hgx⟩
        simp only [hiff]
      · simp only [List.map_cons, pressEvents]
        rw [hstep, if_neg hb, htl.2 hb]

/-- Running the debounce machine from idle over the pressed part of a press
episode emits no event, records the first pressed instant, and reaches the
release-waiting state exactly when some pressed sample arrives strictly
more than DEBOUNCE_PERIOD_MIN after the first one. -/
lemma run_press_episode (s : OvenState) (t0 : ℕ) (ts : List ℕ)
    (hd : s.debounceState = .idle) :
    pressEvents s (pressedPrefix t0 ts) = 0 ∧
    debounceRun s (pressedPrefix t0 ts) =
      (if ∃ t ∈ ts, t - t0 > DEBOUNCE_PERIOD_MIN
       then { s with buttonStatus := Button.none, lastDebounceTime := t0,
                     debounceState := DebounceState.release }
       else { s with buttonStatus := Button.none, lastDebounceTime := t0,
                     debounceState := DebounceState.check }) := by
  have hstep0 := debounceStep_idle_pressed s t0 hd
  have hck := run_pressed_check ts
    { s with buttonStatus := Button.none, lastDebounceTime := t0,
             debounceState := DebounceState.check } rfl
  have hb : ({ s with
      buttonStatus := Button.none, lastDebounceTime := t0,
      debounceState := DebounceState.check } : OvenState).buttonStatus
      ≠ Button.b1 := by simp
  constructor
  · simp only [pressedPrefix, pressEvents]
    rw [hstep0, if_neg hb, hck.2 hb]
  · simp only [pressedPrefix, debounceRun]
    rw [hstep0, hck.1]

/-- C8 (amended): over any monotone trace in which the machine starts idle,
the raw input reads pressed at t0 and at the times in ts, and then reads
released at tr: if no pressed sample arrives strictly more than 50 ms after
t0 (in particular any press shorter than 50 ms), no ButtonEvent is ever
produced; if some pressed sample arrives strictly more than 50 ms after t0,
exactly one ButtonEvent is produced, emitted on the release iteration and
not during the press, however long the press is held. A press whose pressed
samples span exactly 50 ms produces no event, contrary to the claim as
stated: see the counterexample. -/
theorem debounce_press_release (s : OvenState) (t0 tr : ℕ) (ts : List ℕ)
    (hd : s.debounceState = .idle) :
    ((∀ t ∈ ts, t - t0 ≤ DEBOUNCE_PERIOD_MIN) →
      pressEvents s (pressTrace t0 ts tr) = 0) ∧
    ((∃ t ∈ ts, t - t0 > DEBOUNCE_PERIOD_MIN) →
      pressEvents s (pressTrace t0 ts tr) = 1 ∧
      pressEvents s (pressedPrefix t0 ts) = 0 ∧
      (debounceRun s (pressTrace t0 ts tr)).buttonStatus = .b1) := by
  have hep := run_press_episode s t0 ts hd
  constructor
  · intro hall
    have hnex : ¬ ∃ t ∈ ts, t - t0 > DEBOUNCE_PERIOD_MIN := by
      rintro ⟨x, hx, hgx⟩
      exact absurd hgx (not_lt.mpr (hall x hx))
    have hrun : debounceRun s (pressedPrefix t0 ts) =
        { s with buttonStatus := Button.none, lastDebounceTime := t0,
                 debounceState := DebounceState.check } := by
      rw [hep.2, if_neg hnex]
    have hlast := debounceStep_check_released
      { s with buttonStatus := Button.none, lastDebounceTime := t0,
               debounceState := DebounceState.check } tr rfl
    simp only [pressTrace]
    rw [pressEvents_append, hep.1, hrun]
    simp only [pressEvents]
    rw [hlast]
    simp
  · intro hex
    have hrun : debounceRun s (pressedPrefix t0 ts) =
        { s with buttonStatus := Button.none, lastDebounceTime := t0,
                 debounceState := DebounceState.release } := by
      rw [hep.2, if_pos hex]
    have hlast := debounceStep_release_released
      { s with buttonStatus := Button.none, lastDebounceTime := t0,
               debounceState := DebounceState.release } tr rfl
    refine ⟨?_, hep.1, ?_⟩
    · simp only [pressTrace]
      rw [pressEvents_append, hep.1, hrun]
      simp only [pressEvents]
      rw [hlast]
      simp
    · simp only [pressTrace]
      rw [debounceRun_append, hrun]
      simp only [debounceRun]
      rw [hlast]

/-- Witness for C8: a press sampled at 0 and 60 ms and released at 70 ms
produces exactly one event, none of it during the pressed samples, and the
event is pending after the release iteration. -/
theorem debounce_press_release_witness :
    pressEvents (initState 0) (pressTrace 0 [60] 70) = 1 ∧
    pressEvents (initState 0) (pressedPrefix 0 [60]) = 0 ∧
    (debounceRun (initState 0) (pressTrace 0 [60] 70)).buttonStatus = .b1 :=
  (debounce_press_release (initState 0) 0 70 [60] rfl).2 (by decide)

/-- Counterexample for C8 as stated: the input reads pressed at every
sample from 0 to 50 ms (a press held at least 50 ms) and released at
51 ms, yet no ButtonEvent::Pressed is ever produced, because the guard
millis() - lastDebounceTime > DEBOUNCE_PERIOD_MIN is strict and 50 is not
strictly greater than 50. -/
theorem debounce_boundary_cex :
    pressEvents (initState 0) (pressTrace 0 [10, 20, 30, 40, 50] 51) = 0 := by
  decide

end ReflowOven
